import Mathlib

/-!
Verification development for the ToDo API (Eisenhower-matrix task tracker).

The Python source is shallowly embedded: timezone-aware instants become
integers (microseconds since the epoch, the resolution of Python
`datetime`/`timedelta`), optional values become `Option`, HTTP error
responses become an `Except` error type, and the ambient clock
(`datetime.now(timezone.utc)`) is threaded as an explicit `now` parameter.
-/

namespace ToDo

/-- Instants: microseconds since the Unix epoch (timezone-aware datetimes). -/
abbrev Time := Int

/-- Microseconds per second. -/
def usPerSecond : Int := 1000000

/-- Microseconds per hour. -/
def usPerHour : Int := 3600 * 1000000

/-- Microseconds per day. -/
def usPerDay : Int := 86400 * 1000000

/-- The urgency threshold used throughout the source: 259200 seconds = 3 days,
in microseconds.  `timedelta.total_seconds() <= 259200` on an exact
integer-microsecond duration is equivalent to this integer comparison. -/
def urgencyThresholdUs : Int := 259200 * 1000000

/-- Python `timedelta.days`: the whole-day part of a duration.  `timedelta`
normalizes so that the sub-day remainder is in `[0, 1 day)`, hence `days` is
floor division (negative durations round toward negative infinity). -/
def timedeltaDays (us : Int) : Int := Int.fdiv us usPerDay

/-- `calculate_is_urgent` (src/routers/stats.py lines 16-28; the same logic
appears in `Task.calculate_is_urgent`, src/models/task.py lines 92-107):
false when no deadline, otherwise `(deadline_at - now).total_seconds() <= 259200`. -/
def calculate_is_urgent (deadline_at : Option Time) (now : Time) : Bool :=
  match deadline_at with
  | Option.none => false
  | Option.some d => decide (d - now ≤ urgencyThresholdUs)

/-- `calculate_quadrant` (src/routers/tasks.py lines 19-43): computes urgency
inline (`if deadline_at:` — a datetime is always truthy, so this is a
not-None test), then picks one of Q1-Q4. -/
def calculate_quadrant (is_important : Bool) (deadline_at : Option Time) (now : Time) : String :=
  let is_urgent : Bool :=
    match deadline_at with
    | Option.none => false
    | Option.some d => decide (d - now ≤ urgencyThresholdUs)
  if is_important && is_urgent then "Q1"
  else if is_important && !is_urgent then "Q2"
  else if !is_important && is_urgent then "Q3"
  else "Q4"

/-- `calculate_days_until_deadline` (src/routers/tasks.py lines 46-60; the
same logic appears as `days_until_deadline` in src/routers/stats.py lines
31-45 and `Task.days_until_deadline` in src/models/task.py lines 110-126):
None when no deadline, otherwise `(deadline_at - now).days`. -/
def calculate_days_until_deadline (deadline_at : Option Time) (now : Time) : Option Int :=
  match deadline_at with
  | Option.none => Option.none
  | Option.some d => Option.some (timedeltaDays (d - now))

theorem usPerDay_pos : (0 : Int) < usPerDay := by decide

/-- Floor characterization of `timedeltaDays`. -/
theorem timedeltaDays_spec (us : Int) :
    timedeltaDays us * usPerDay ≤ us ∧ us < (timedeltaDays us + 1) * usPerDay := by
  unfold timedeltaDays
  rw [Int.fdiv_eq_ediv _ (by decide : (0:Int) ≤ usPerDay)]
  have h1 := Int.ediv_add_emod us usPerDay
  have h2 := Int.emod_nonneg us (by decide : usPerDay ≠ 0)
  have h3 := Int.emod_lt_of_pos us usPerDay_pos
  constructor <;> nlinarith

/-- Claim C2: `calculate_quadrant` is total and returns exactly one of Q1-Q4,
following the important×urgent case split, where urgency is false for an
absent deadline, holds iff `deadline_at - now ≤ 259200` seconds (inclusive at
exactly three days, false one microsecond later), and holds for every
deadline already in the past. -/
theorem calculate_quadrant_spec (imp : Bool) (dl : Option Time) (now : Time) :
    (calculate_quadrant imp dl now = "Q1" ∨ calculate_quadrant imp dl now = "Q2" ∨
      calculate_quadrant imp dl now = "Q3" ∨ calculate_quadrant imp dl now = "Q4") ∧
    calculate_quadrant imp dl now =
      (if imp && calculate_is_urgent dl now then "Q1"
       else if imp && !(calculate_is_urgent dl now) then "Q2"
       else if !imp && calculate_is_urgent dl now then "Q3"
       else "Q4") ∧
    calculate_is_urgent Option.none now = false ∧
    (∀ d : Time, calculate_is_urgent (Option.some d) now = decide (d - now ≤ 259200 * usPerSecond)) ∧
    calculate_is_urgent (Option.some (now + urgencyThresholdUs)) now = true ∧
    calculate_is_urgent (Option.some (now + urgencyThresholdUs + 1)) now = false ∧
    (∀ k : Nat, calculate_is_urgent (Option.some (now - (k : Int))) now = true) := by
  have hqe : calculate_quadrant imp dl now =
      (if imp && calculate_is_urgent dl now then "Q1"
       else if imp && !(calculate_is_urgent dl now) then "Q2"
       else if !imp && calculate_is_urgent dl now then "Q3"
       else "Q4") := by
    cases imp <;> cases dl <;> simp [calculate_quadrant, calculate_is_urgent]
  refine ⟨?_, hqe, rfl, ?_, ?_, ?_, ?_⟩
  · rw [hqe]
    cases imp <;> rcases hcu : calculate_is_urgent dl now <;> simp [hcu]
  · intro d
    simp [calculate_is_urgent, urgencyThresholdUs, usPerSecond]
  · simp only [calculate_is_urgent, decide_eq_true_eq, urgencyThresholdUs]
    linarith
  · simp only [calculate_is_urgent, decide_eq_false_iff_not, urgencyThresholdUs]
    linarith
  · intro k
    simp only [calculate_is_urgent, decide_eq_true_eq, urgencyThresholdUs]
    have : (0 : Int) ≤ (k : Int) := Int.natCast_nonneg k
    linarith

/-- Claim C3: `calculate_days_until_deadline` is None exactly for an absent
deadline and otherwise floors the duration to whole days (negative for past
deadlines): its value `n` satisfies `n·day ≤ deadline − now < (n+1)·day`;
in particular 25 hours ahead gives 1, one hour ago gives −1, and any
deadline less than 24 hours in the future gives 0. -/
theorem calculate_days_until_deadline_spec (now : Time) :
    calculate_days_until_deadline Option.none now = Option.none ∧
    (∀ d : Time, ∃ n : Int, calculate_days_until_deadline (Option.some d) now = Option.some n ∧
      n * usPerDay ≤ d - now ∧ d - now < (n + 1) * usPerDay) ∧
    calculate_days_until_deadline (Option.some (now + 25 * usPerHour)) now = Option.some 1 ∧
    calculate_days_until_deadline (Option.some (now - usPerHour)) now = Option.some (-1) ∧
    (∀ k : Nat, (k : Int) < usPerDay →
      calculate_days_until_deadline (Option.some (now + (k : Int))) now = Option.some 0) := by
  refine ⟨rfl, ?_, ?_, ?_, ?_⟩
  · intro d
    exact ⟨timedeltaDays (d - now), rfl, (timedeltaDays_spec (d - now)).1,
      (timedeltaDays_spec (d - now)).2⟩
  · simp only [calculate_days_until_deadline, Option.some.injEq]
    have : now + 25 * usPerHour - now = 25 * usPerHour := by ring
    rw [this]
    decide
  · simp only [calculate_days_until_deadline, Option.some.injEq]
    have : now - usPerHour - now = -usPerHour := by ring
    rw [this]
    decide
  · intro k hk
    simp only [calculate_days_until_deadline, Option.some.injEq]
    have h : now + (k : Int) - now = (k : Int) := by ring
    rw [h]
    unfold timedeltaDays
    rw [Int.fdiv_eq_ediv _ (by decide : (0:Int) ≤ usPerDay)]
    simp only [usPerDay] at hk ⊢
    omega

/-- Witness for C3: instantiating the under-24-hours conjunct at a concrete
deadline one microsecond in the future. -/
theorem calculate_days_until_deadline_spec_witness :
    calculate_days_until_deadline (Option.some ((0 : Int) + ((1 : Nat) : Int))) 0 =
      Option.some 0 :=
  (calculate_days_until_deadline_spec 0).2.2.2.2 1 (by decide)

/-! ### Data model -/

/-- User roles: the `UserRole` enum with string values `"user"` and `"admin"`. -/
inductive UserRole
  | user
  | admin
deriving DecidableEq

/-- `UserRole.value`: the string payload of the enum, which is what every
router compares (`current_user.role.value == "admin"`). -/
def UserRole.value : UserRole → String
  | UserRole.user => "user"
  | UserRole.admin => "admin"

/-- The actor: the fields of the `User` model that the task/stats/admin
routers read. -/
structure User where
  id : Int
  role : UserRole
deriving DecidableEq

/-- A task row (src/models/task.py lines 6-70).  `is_urgent` is assigned as
a plain Python attribute in the create and update handlers but is not a
mapped column: it is never persisted and never read back by any serializer,
so it is not part of the stored row. -/
structure Task where
  id : Int
  title : String
  description : Option String
  is_important : Bool
  quadrant : String
  completed : Bool
  created_at : Time
  completed_at : Option Time
  deadline_at : Option Time
  user_id : Int
deriving DecidableEq

/-! ### Response serialization

`Task.to_dict` produces a Python dict and the handlers pass it to the
pydantic constructor `TaskResponse(**task_dict)`.  A dict is a partial map
from keys to Python values; pydantic treats an absent key as "use the
field's default, or fail validation if the field is required". -/

/-- A Python value as stored in a response dict. -/
inductive PyVal
  | vNone
  | vInt (n : Int)
  | vStr (s : String)
  | vBool (b : Bool)
  | vTime (t : Time)
deriving DecidableEq

/-- Keys of the dicts built by `Task.to_dict` and the task handlers. -/
inductive DictKey
  | id
  | title
  | description
  | is_important
  | quadrant
  | completed
  | created_at
  | completed_at
  | deadline_at
  | user_id
  | is_urgent
  | days_until_deadline
  | status_message
deriving DecidableEq

/-- A Python dict over these keys. -/
def PyDict := DictKey → Option PyVal

/-- `d[k] = v` dict update. -/
def PyDict.insert (d : PyDict) (k : DictKey) (v : PyVal) : PyDict :=
  fun k2 => if k2 = k then Option.some v else d k2

/-- An optional string as a Python value (`None` or `str`). -/
def pyOfOptStr : Option String → PyVal
  | Option.none => PyVal.vNone
  | Option.some s => PyVal.vStr s

/-- An optional datetime as a Python value. -/
def pyOfOptTime : Option Time → PyVal
  | Option.none => PyVal.vNone
  | Option.some t => PyVal.vTime t

/-- An optional int as a Python value. -/
def pyOfOptInt : Option Int → PyVal
  | Option.none => PyVal.vNone
  | Option.some n => PyVal.vInt n

/-- `Task.to_dict` (src/models/task.py lines 75-89).  The `is_urgent` entry
is commented out in the source, so the resulting dict has no `is_urgent`
key (and no `days_until_deadline` or `status_message` key either; handlers
add those separately). -/
def Task.to_dict (t : Task) : PyDict := fun k =>
  match k with
  | DictKey.id => Option.some (PyVal.vInt t.id)
  | DictKey.title => Option.some (PyVal.vStr t.title)
  | DictKey.description => Option.some (pyOfOptStr t.description)
  | DictKey.is_important => Option.some (PyVal.vBool t.is_important)
  | DictKey.quadrant => Option.some (PyVal.vStr t.quadrant)
  | DictKey.completed => Option.some (PyVal.vBool t.completed)
  | DictKey.created_at => Option.some (PyVal.vTime t.created_at)
  | DictKey.completed_at => Option.some (pyOfOptTime t.completed_at)
  | DictKey.deadline_at => Option.some (pyOfOptTime t.deadline_at)
  | DictKey.user_id => Option.some (PyVal.vInt t.user_id)
  | _ => Option.none

/-- The `TaskResponse` pydantic schema (src/schemas.py lines 33-46):
`is_urgent` is a required field with no default; `description`,
`completed_at`, `deadline_at`, `days_until_deadline` default to `None`;
`is_important` (inherited from `TaskBase`) defaults to `False`. -/
structure TaskResponse where
  id : Int
  title : String
  description : Option String
  is_important : Bool
  quadrant : String
  completed : Bool
  created_at : Time
  completed_at : Option Time
  deadline_at : Option Time
  is_urgent : Bool
  days_until_deadline : Option Int
deriving DecidableEq

/-- HTTP-level failures raised by the handlers (`HTTPException`s), plus the
error pydantic raises when a dict fails `TaskResponse` validation. -/
inductive ApiError
  | notFound
  | forbidden
  | badRequest
  | unprocessable
  | validationFailure (missing : DictKey)
deriving DecidableEq

/-- Required int field: present with an int value, or validation fails. -/
def PyDict.reqInt (d : PyDict) (k : DictKey) : Except ApiError Int :=
  match d k with
  | Option.some (PyVal.vInt n) => Except.ok n
  | _ => Except.error (ApiError.validationFailure k)

/-- Required str field. -/
def PyDict.reqStr (d : PyDict) (k : DictKey) : Except ApiError String :=
  match d k with
  | Option.some (PyVal.vStr s) => Except.ok s
  | _ => Except.error (ApiError.validationFailure k)

/-- Required bool field. -/
def PyDict.reqBool (d : PyDict) (k : DictKey) : Except ApiError Bool :=
  match d k with
  | Option.some (PyVal.vBool b) => Except.ok b
  | _ => Except.error (ApiError.validationFailure k)

/-- Required datetime field. -/
def PyDict.reqTime (d : PyDict) (k : DictKey) : Except ApiError Time :=
  match d k with
  | Option.some (PyVal.vTime t) => Except.ok t
  | _ => Except.error (ApiError.validationFailure k)

/-- Optional str field with default `None`: an absent key or an explicit
`None` both yield `None`. -/
def PyDict.optStr (d : PyDict) (k : DictKey) : Except ApiError (Option String) :=
  match d k with
  | Option.none => Except.ok Option.none
  | Option.some PyVal.vNone => Except.ok Option.none
  | Option.some (PyVal.vStr s) => Except.ok (Option.some s)
  | _ => Except.error (ApiError.validationFailure k)

/-- Optional datetime field with default `None`. -/
def PyDict.optTime (d : PyDict) (k : DictKey) : Except ApiError (Option Time) :=
  match d k with
  | Option.none => Except.ok Option.none
  | Option.some PyVal.vNone => Except.ok Option.none
  | Option.some (PyVal.vTime t) => Except.ok (Option.some t)
  | _ => Except.error (ApiError.validationFailure k)

/-- Optional int field with default `None`. -/
def PyDict.optInt (d : PyDict) (k : DictKey) : Except ApiError (Option Int) :=
  match d k with
  | Option.none => Except.ok Option.none
  | Option.some PyVal.vNone => Except.ok Option.none
  | Option.some (PyVal.vInt n) => Except.ok (Option.some n)
  | _ => Except.error (ApiError.validationFailure k)

/-- Bool field with a default: absent yields the default. -/
def PyDict.boolD (d : PyDict) (k : DictKey) (dflt : Bool) : Except ApiError Bool :=
  match d k with
  | Option.none => Except.ok dflt
  | Option.some (PyVal.vBool b) => Except.ok b
  | _ => Except.error (ApiError.validationFailure k)

/-- `TaskResponse(**data)`: pydantic validation of a dict against the
schema.  A required field absent from the dict (`is_urgent` among them)
fails validation; extra keys (`user_id`, `status_message`) are ignored. -/
def TaskResponse.ofDict (d : PyDict) : Except ApiError TaskResponse := do
  let i ← d.reqInt DictKey.id
  let ti ← d.reqStr DictKey.title
  let de ← d.optStr DictKey.description
  let imp ← d.boolD DictKey.is_important false
  let q ← d.reqStr DictKey.quadrant
  let c ← d.reqBool DictKey.completed
  let ca ← d.reqTime DictKey.created_at
  let coa ← d.optTime DictKey.completed_at
  let dla ← d.optTime DictKey.deadline_at
  let u ← d.reqBool DictKey.is_urgent
  let days ← d.optInt DictKey.days_until_deadline
  Except.ok
    { id := i, title := ti, description := de, is_important := imp, quadrant := q,
      completed := c, created_at := ca, completed_at := coa, deadline_at := dla,
      is_urgent := u, days_until_deadline := days }

/-- `TaskResponse.from_orm` (src/schemas.py lines 49-66): builds the
response directly from the row, computing `is_urgent` and
`days_until_deadline` freshly from the task's deadline and the clock. -/
def TaskResponse.from_orm (t : Task) (now : Time) : TaskResponse :=
  { id := t.id, title := t.title, description := t.description,
    is_important := t.is_important, quadrant := t.quadrant, completed := t.completed,
    created_at := t.created_at, completed_at := t.completed_at,
    deadline_at := t.deadline_at,
    is_urgent := calculate_is_urgent t.deadline_at now,
    days_until_deadline := calculate_days_until_deadline t.deadline_at now }

/-- The `status_message` computed in `get_all_tasks` and `get_task_by_id`
(src/routers/tasks.py lines 85-89 and 252-256). -/
def status_message (t : Task) (now : Time) : String :=
  if t.deadline_at.isSome &&
      (match calculate_days_until_deadline t.deadline_at now with
       | Option.some days => decide (days < 0)
       | Option.none => false) then
    "Задача просрочена"
  else
    "Все идет по плану!"

/-! ### Task router handlers (src/routers/tasks.py)

The store is a list of rows keyed by the unique primary key `id`
(`scalar_one_or_none` can return at most one row per id).  Each handler
takes the read- or write-time clock as `now`. -/

/-- The role-scoped base select used by `get_all_tasks` (src/routers/tasks.py
lines 69-75), `get_tasks_stats` (src/routers/stats.py lines 60-69) and
`get_urgent_tasks` (src/routers/stats.py lines 185-188): admins see every
task, others only rows with their `user_id`. -/
def visible_tasks (db : List Task) (u : User) : List Task :=
  if u.role.value == "admin" then db
  else db.filter (fun t => t.user_id == u.id)

/-- Serialization used by `get_all_tasks` and `get_task_by_id`: `to_dict`
plus the computed `days_until_deadline` and `status_message` keys, fed to
`TaskResponse(**task_dict)`. -/
def serialize_with_days (task : Task) (now : Time) : Except ApiError TaskResponse :=
  let d := (task.to_dict).insert DictKey.days_until_deadline
    (pyOfOptInt (calculate_days_until_deadline task.deadline_at now))
  let d := d.insert DictKey.status_message (PyVal.vStr (status_message task now))
  TaskResponse.ofDict d

/-- `get_all_tasks` (src/routers/tasks.py lines 63-93): role-scoped select,
then per-task serialization through `to_dict`.  The Python loop raises on
the first task whose dict fails response validation, which `mapM` models. -/
def get_all_tasks (db : List Task) (current_user : User) (now : Time) :
    Except ApiError (List TaskResponse) :=
  (visible_tasks db current_user).mapM (fun task => serialize_with_days task now)

/-- The select of `get_tasks_by_quadrant` (src/routers/tasks.py lines
109-122): quadrant filter, plus the owner filter for non-admins. -/
def tasks_by_quadrant_select (db : List Task) (u : User) (q : String) : List Task :=
  if u.role.value == "admin" then db.filter (fun t => t.quadrant == q)
  else db.filter (fun t => t.quadrant == q && t.user_id == u.id)

/-- `get_tasks_by_quadrant` (src/routers/tasks.py lines 96-123): 400 on a
bad quadrant literal, otherwise the scoped select serialized via
`TaskResponse.from_orm`. -/
def get_tasks_by_quadrant (db : List Task) (u : User) (q : String) (now : Time) :
    Except ApiError (List TaskResponse) :=
  if !(["Q1", "Q2", "Q3", "Q4"].contains q) then Except.error ApiError.badRequest
  else Except.ok ((tasks_by_quadrant_select db u q).map (fun t => TaskResponse.from_orm t now))

/-- The select of `get_tasks_by_status` (src/routers/tasks.py lines 209-221). -/
def tasks_by_status_select (db : List Task) (u : User) (is_completed : Bool) : List Task :=
  if u.role.value == "admin" then db.filter (fun t => t.completed == is_completed)
  else db.filter (fun t => t.completed == is_completed && t.user_id == u.id)

/-- `get_tasks_by_status` (src/routers/tasks.py lines 195-224): 400 on a bad
status literal, otherwise the scoped select serialized via `from_orm`. -/
def get_tasks_by_status (db : List Task) (u : User) (st : String) (now : Time) :
    Except ApiError (List TaskResponse) :=
  if !(["completed", "pending"].contains st) then Except.error ApiError.badRequest
  else
    Except.ok ((tasks_by_status_select db u (st == "completed")).map
      (fun t => TaskResponse.from_orm t now))

/-- SQL `ilike '%kw%'` with a lowercased keyword: case-insensitive substring
test; a NULL column never matches. -/
def ilike_contains (hay : String) (kw : String) : Bool :=
  decide (List.IsInfix (kw.toLower.toList) (hay.toLower.toList))

/-- The select of `search_tasks` (src/routers/tasks.py lines 169-185):
title-or-description match, plus the owner filter for non-admins. -/
def search_select (db : List Task) (u : User) (q : String) : List Task :=
  let hit := fun (t : Task) => ilike_contains t.title q ||
    (match t.description with
     | Option.some s => ilike_contains s q
     | Option.none => false)
  if u.role.value == "admin" then db.filter hit
  else db.filter (fun t => t.user_id == u.id && hit t)

/-- `search_tasks` (src/routers/tasks.py lines 161-192): FastAPI rejects a
query shorter than 2 characters (min_length), an empty result is a 404,
otherwise the matches are serialized via `from_orm`. -/
def search_tasks (db : List Task) (u : User) (q : String) (now : Time) :
    Except ApiError (List TaskResponse) :=
  if q.length < 2 then Except.error ApiError.unprocessable
  else
    let found := search_select db u q
    if found.isEmpty then Except.error ApiError.notFound
    else Except.ok (found.map (fun t => TaskResponse.from_orm t now))

/-- `get_task_by_id` (src/routers/tasks.py lines 227-258): 404 when the id
is absent, then 403 when the actor is neither admin nor owner, then
serialization through `to_dict` (which carries no `is_urgent` key). -/
def get_task_by_id (db : List Task) (current_user : User) (task_id : Int) (now : Time) :
    Except ApiError TaskResponse :=
  match db.find? (fun t => t.id == task_id) with
  | Option.none => Except.error ApiError.notFound
  | Option.some task =>
    if current_user.role.value != "admin" && task.user_id != current_user.id then
      Except.error ApiError.forbidden
    else
      serialize_with_days task now

/-- `TaskCreate` (src/schemas.py lines 12-18). -/
structure TaskCreate where
  title : String
  description : Option String := Option.none
  is_important : Bool := false
  deadline_at : Option Time := Option.none
deriving DecidableEq

/-- Autoincrement primary key: one more than the largest id in the store. -/
def next_id (db : List Task) : Int := db.foldl (fun m t => max m t.id) 0 + 1

/-- Result of `create_task`: the new store and the serialized response. -/
structure CreateOutcome where
  db : List Task
  response : TaskResponse
deriving DecidableEq

/-- `create_task` (src/routers/tasks.py lines 261-294): computes the
quadrant from the request's importance and deadline at the write-time
clock, inserts the row with `completed=False` and the caller as owner
(`created_at` is server-assigned `now`), and serializes via `from_orm`.
The transient `is_urgent` attribute assigned to the new object is not a
column and is not read by `from_orm`, which recomputes urgency itself. -/
def create_task (db : List Task) (u : User) (req : TaskCreate) (now : Time) : CreateOutcome :=
  let q := calculate_quadrant req.is_important req.deadline_at now
  let new_task : Task :=
    { id := next_id db, title := req.title, description := req.description,
      is_important := req.is_important, quadrant := q, completed := false,
      created_at := now, completed_at := Option.none, deadline_at := req.deadline_at,
      user_id := u.id }
  { db := db ++ [new_task], response := TaskResponse.from_orm new_task now }

/-- `TaskUpdate` (src/schemas.py lines 21-30): every field optional.  The
outer `Option` distinguishes "not supplied" (excluded by
`model_dump(exclude_unset=True)`) from "supplied"; for the nullable columns
`description` and `deadline_at` the supplied value is itself optional, so
an explicitly supplied null is `Option.some Option.none`.  `title`,
`is_important` and `completed` map to non-nullable columns, and the claims
only exercise non-null supplied values for them. -/
structure TaskUpdate where
  title : Option String := Option.none
  description : Option (Option String) := Option.none
  is_important : Option Bool := Option.none
  deadline_at : Option (Option Time) := Option.none
  completed : Option Bool := Option.none
deriving DecidableEq

/-- The setattr loop plus conditional recompute in `update_task`
(src/routers/tasks.py lines 319-331): apply every supplied field, then, iff
`is_important` or `deadline_at` was among the supplied keys, recompute
`quadrant` from the post-update values of both fields with the write-time
clock.  (The handler also assigns the transient non-column `is_urgent`
attribute, which is not persisted.) -/
def apply_update (task : Task) (upd : TaskUpdate) (now : Time) : Task :=
  let task := match upd.title with
    | Option.some v => { task with title := v }
    | Option.none => task
  let task := match upd.description with
    | Option.some v => { task with description := v }
    | Option.none => task
  let task := match upd.is_important with
    | Option.some v => { task with is_important := v }
    | Option.none => task
  let task := match upd.deadline_at with
    | Option.some v => { task with deadline_at := v }
    | Option.none => task
  let task := match upd.completed with
    | Option.some v => { task with completed := v }
    | Option.none => task
  if upd.is_important.isSome || upd.deadline_at.isSome then
    { task with quadrant := calculate_quadrant task.is_important task.deadline_at now }
  else task

/-- Result of a mutating handler: the committed store, and the response
serialization attempt (the commit happens before the response is built, so
a failing serialization does not roll the write back). -/
structure MutationOutcome where
  db : List Task
  response : Except ApiError TaskResponse

/-- `update_task` (src/routers/tasks.py lines 297-340): 404 when the id is
absent, then 403 when the actor is neither admin nor owner; otherwise the
row is rewritten by the setattr loop and committed, and the response is
built from `to_dict` plus `days_until_deadline` (no `status_message` here,
and still no `is_urgent` key). -/
def update_task (db : List Task) (u : User) (task_id : Int) (upd : TaskUpdate) (now : Time) :
    Except ApiError MutationOutcome :=
  match db.find? (fun t => t.id == task_id) with
  | Option.none => Except.error ApiError.notFound
  | Option.some task =>
    if u.role.value != "admin" && task.user_id != u.id then
      Except.error ApiError.forbidden
    else
      let task2 := apply_update task upd now
      let db2 := db.map (fun t => if t.id == task_id then apply_update t upd now else t)
      let d := (task2.to_dict).insert DictKey.days_until_deadline
        (pyOfOptInt (calculate_days_until_deadline task2.deadline_at now))
      Except.ok { db := db2, response := TaskResponse.ofDict d }

/-- The state change of `complete_task`: set `completed` and stamp
`completed_at` with the write-time clock (src/routers/tasks.py lines
364-365). -/
def complete_apply (t : Task) (now : Time) : Task :=
  { t with completed := true, completed_at := Option.some now }

/-- `complete_task` (src/routers/tasks.py lines 343-374): 404 before 403,
then the completion write, then the same `to_dict`-based serialization as
`update_task`. -/
def complete_task (db : List Task) (u : User) (task_id : Int) (now : Time) :
    Except ApiError MutationOutcome :=
  match db.find? (fun t => t.id == task_id) with
  | Option.none => Except.error ApiError.notFound
  | Option.some task =>
    if u.role.value != "admin" && task.user_id != u.id then
      Except.error ApiError.forbidden
    else
      let task2 := complete_apply task now
      let db2 := db.map (fun t => if t.id == task_id then complete_apply t now else t)
      let d := (task2.to_dict).insert DictKey.days_until_deadline
        (pyOfOptInt (calculate_days_until_deadline task2.deadline_at now))
      Except.ok { db := db2, response := TaskResponse.ofDict d }

/-- Result of `delete_task`: the store without the row, and the identity
summary returned for confirmation. -/
structure DeleteOutcome where
  db : List Task
  deleted_id : Int
  deleted_title : String
deriving DecidableEq

/-- `delete_task` (src/routers/tasks.py lines 377-410): 404 before 403,
then hard removal of the row and a summary of the deleted identity. -/
def delete_task (db : List Task) (u : User) (task_id : Int) :
    Except ApiError DeleteOutcome :=
  match db.find? (fun t => t.id == task_id) with
  | Option.none => Except.error ApiError.notFound
  | Option.some task =>
    if u.role.value != "admin" && task.user_id != u.id then
      Except.error ApiError.forbidden
    else
      Except.ok
        { db := db.filter (fun t => !(t.id == task_id)), deleted_id := task.id,
          deleted_title := task.title }

/-! ### Stats router (src/routers/stats.py) and admin router (src/routers/admin.py) -/

/-- The counters accumulated by the loop in `get_tasks_stats`
(src/routers/stats.py lines 77-110). -/
structure TasksStats where
  q1 : Nat
  q2 : Nat
  q3 : Nat
  q4 : Nat
  completed_count : Nat
  pending_count : Nat
  with_deadline : Nat
  without_deadline : Nat
  urgent : Nat
  overdue : Nat
deriving DecidableEq

/-- The per-task body of the `get_tasks_stats` loop (src/routers/stats.py
lines 88-110): bump the quadrant bucket when the stored quadrant is one of
Q1-Q4, bump completed/pending, and for tasks with a deadline bump
`with_deadline`, bump `urgent` when `calculate_is_urgent`, and bump
`overdue` when `days_until_deadline < 0` — the source checks `completed`
nowhere in the deadline buckets. -/
def stats_step (acc : TasksStats) (task : Task) (now : Time) : TasksStats :=
  let acc :=
    if task.quadrant == "Q1" then { acc with q1 := acc.q1 + 1 }
    else if task.quadrant == "Q2" then { acc with q2 := acc.q2 + 1 }
    else if task.quadrant == "Q3" then { acc with q3 := acc.q3 + 1 }
    else if task.quadrant == "Q4" then { acc with q4 := acc.q4 + 1 }
    else acc
  let acc :=
    if task.completed then { acc with completed_count := acc.completed_count + 1 }
    else { acc with pending_count := acc.pending_count + 1 }
  match task.deadline_at with
  | Option.some _ =>
    let acc := { acc with with_deadline := acc.with_deadline + 1 }
    let acc :=
      if calculate_is_urgent task.deadline_at now then { acc with urgent := acc.urgent + 1 }
      else acc
    (match calculate_days_until_deadline task.deadline_at now with
     | Option.some days =>
       if days < 0 then { acc with overdue := acc.overdue + 1 } else acc
     | Option.none => acc)
  | Option.none => { acc with without_deadline := acc.without_deadline + 1 }

/-- `get_tasks_stats` (src/routers/stats.py lines 48-126): the candidate set
is the role-scoped select, folded through the counting loop. -/
def get_tasks_stats (db : List Task) (u : User) (now : Time) : TasksStats :=
  (visible_tasks db u).foldl (fun acc t => stats_step acc t now)
    { q1 := 0, q2 := 0, q3 := 0, q4 := 0, completed_count := 0, pending_count := 0,
      with_deadline := 0, without_deadline := 0, urgent := 0, overdue := 0 }

/-- The sort key order of `get_urgent_tasks` (src/routers/stats.py line
208): ascending `days_until_deadline`, a missing value sorting as
`float('inf')`, i.e. last. -/
def urgent_days_le : Option Int → Option Int → Bool
  | Option.none, Option.none => true
  | Option.none, Option.some _ => false
  | Option.some _, Option.none => true
  | Option.some a, Option.some b => decide (a ≤ b)

/-- `get_urgent_tasks` (src/routers/stats.py lines 173-210): role-scoped
select, keep the tasks that are live-urgent and not completed, and sort by
remaining days (the source sorts the per-task dicts; sorting the rows by
the same key yields the same sequence of tasks). -/
def get_urgent_tasks (db : List Task) (u : User) (now : Time) : List Task :=
  let chosen := (visible_tasks db u).filter
    (fun t => calculate_is_urgent t.deadline_at now && !t.completed)
  chosen.mergeSort (fun a b =>
    urgent_days_le (calculate_days_until_deadline a.deadline_at now)
      (calculate_days_until_deadline b.deadline_at now))

/-- A value flowing into `calculate_is_urgent` at its call sites: a Python
datetime-or-None taken from a task row, or the SQLAlchemy column object
`Task.deadline_at` used inside a `select().where()` expression. -/
inductive PyArgVal
  | pyNone
  | pyDatetime (t : Time)
  | sqlColumn
deriving DecidableEq

/-- A Python runtime failure. -/
inductive PyRuntimeError
  | attributeError (attr : String)
deriving DecidableEq

/-- An optional timestamp as the Python argument it becomes. -/
def pyArgOfOpt : Option Time → PyArgVal
  | Option.none => PyArgVal.pyNone
  | Option.some t => PyArgVal.pyDatetime t

/-- Dynamic semantics of `calculate_is_urgent` (src/routers/stats.py lines
16-28) under Python typing: `None` takes the designed early-return branch;
a datetime yields the duration comparison; the SQLAlchemy column object is
not `None`, so the body proceeds, `Task.deadline_at - now` builds a SQL
`BinaryExpression` instead of a `timedelta`, and calling `.total_seconds()`
on it raises `AttributeError`. -/
def calculate_is_urgent_dyn (deadline_at : PyArgVal) (now : Time) :
    Except PyRuntimeError Bool :=
  match deadline_at with
  | PyArgVal.pyNone => Except.ok false
  | PyArgVal.pyDatetime d => Except.ok (decide (d - now ≤ urgencyThresholdUs))
  | PyArgVal.sqlColumn => Except.error (PyRuntimeError.attributeError "total_seconds")

/-- The urgent-count query construction in `get_stats_summary`
(src/routers/stats.py lines 296-302 admin branch, lines 328-335 user
branch): both branches invoke `calculate_is_urgent(Task.deadline_at)`,
passing the column object, while building the filter. -/
def get_stats_summary_urgent_call (now : Time) : Except PyRuntimeError Bool :=
  calculate_is_urgent_dyn PyArgVal.sqlColumn now

/-- The overdue-count filter of `get_stats_summary` (src/routers/stats.py
lines 305-312 / 337-346): deadline non-null, `deadline_at < now`, not
completed, role-scoped.  (The summary handler never reaches this query at
runtime because the urgent query raises first; the filter itself is modeled
here.) -/
def summary_overdue_count (db : List Task) (u : User) (now : Time) : Nat :=
  ((if u.role.value == "admin" then db else db.filter (fun t => t.user_id == u.id)).filter
    (fun t =>
      match t.deadline_at with
      | Option.some d => decide (d < now) && !t.completed
      | Option.none => false)).length

/-- The per-task `is_overdue` field computed by the admin listing
`get_user_tasks` (src/routers/admin.py lines 106-117): with a deadline,
`days_left < 0 and not task.completed`; without one, `False`. -/
def admin_is_overdue (t : Task) (now : Time) : Bool :=
  match t.deadline_at with
  | Option.some d => decide (timedeltaDays (d - now) < 0) && !t.completed
  | Option.none => false

/-- The specification's overdue predicate, stated from the spec's words for
comparison: deadline present, already in the past, and the task not
completed. -/
def is_overdue_spec (deadline_at : Option Time) (completed : Bool) (now : Time) : Bool :=
  match deadline_at with
  | Option.some d => decide (d < now) && !completed
  | Option.none => false

/-! ### Shared concrete fixtures and helper lemmas -/

/-- A non-admin actor. -/
def demo_user : User := { id := 7, role := UserRole.user }

/-- An admin actor. -/
def admin_user : User := { id := 1, role := UserRole.admin }

/-- A second non-admin actor, not the owner of `demo_task`. -/
def other_user : User := { id := 8, role := UserRole.user }

/-- A task owned by `demo_user`, with no deadline. -/
def demo_task : Task :=
  { id := 1, title := "A", description := Option.none, is_important := true,
    quadrant := "Q2", completed := false, created_at := 0,
    completed_at := Option.none, deadline_at := Option.none, user_id := 7 }

/-- `timedelta.days` is negative exactly for negative durations. -/
theorem timedeltaDays_neg_iff (us : Int) : timedeltaDays us < 0 ↔ us < 0 := by
  have h := timedeltaDays_spec us
  constructor
  · intro hlt
    have h1 : timedeltaDays us + 1 ≤ 0 := by omega
    nlinarith [h.2, usPerDay_pos]
  · intro hlt
    by_contra hge
    push_neg at hge
    nlinarith [h.1, usPerDay_pos]

/-- `apply_update` never touches `completed_at`. -/
theorem apply_update_completed_at (t : Task) (upd : TaskUpdate) (now : Time) :
    (apply_update t upd now).completed_at = t.completed_at := by
  rcases upd with ⟨_ | a, _ | b, _ | c, _ | d, _ | e⟩ <;> simp [apply_update]

/-- `apply_update` leaves `completed` alone when the request does not
supply it. -/
theorem apply_update_completed_of_unset (t : Task) (upd : TaskUpdate) (now : Time)
    (hc : upd.completed = Option.none) :
    (apply_update t upd now).completed = t.completed := by
  rcases upd with ⟨_ | a, _ | b, _ | c, _ | d, _ | e⟩ <;>
    simp_all [apply_update]

/-! ### Claim theorems -/

/-- Claim C1 (code defect, evaluated at a failing input): fetching an
existing, authorized task — and likewise list-all, update and complete —
fails response validation, because `Task.to_dict` carries no `is_urgent`
key, the handler adds only `days_until_deadline` (and `status_message`),
and `TaskResponse.is_urgent` is a required field; meanwhile the `from_orm`
path used by by-quadrant, by-status, search and create does compute
`is_urgent` and `days_until_deadline` freshly from the deadline and the
clock for every task. -/
theorem task_serialization_missing_is_urgent :
    get_task_by_id [demo_task] demo_user 1 0 =
      Except.error (ApiError.validationFailure DictKey.is_urgent) ∧
    get_all_tasks [demo_task] demo_user 0 =
      Except.error (ApiError.validationFailure DictKey.is_urgent) ∧
    (match update_task [demo_task] demo_user 1 {} 0 with
     | Except.ok out => out.response
     | Except.error e => Except.error e) =
      Except.error (ApiError.validationFailure DictKey.is_urgent) ∧
    (match complete_task [demo_task] demo_user 1 0 with
     | Except.ok out => out.response
     | Except.error e => Except.error e) =
      Except.error (ApiError.validationFailure DictKey.is_urgent) ∧
    (∀ (t : Task) (now : Time),
      (TaskResponse.from_orm t now).is_urgent = calculate_is_urgent t.deadline_at now ∧
      (TaskResponse.from_orm t now).days_until_deadline =
        calculate_days_until_deadline t.deadline_at now) :=
  ⟨rfl, rfl, rfl, rfl, fun _ _ => ⟨rfl, rfl⟩⟩

/-- Claim C9 (code defect, evaluated at the failing input): the urgency
call made while `get_stats_summary` builds its urgent-count query receives
the SQLAlchemy column object and raises `AttributeError` instead of
terminating normally, while every urgency call applied to an optional
timestamp taken from a task row is total. -/
theorem summary_urgent_call_fails (now : Time) :
    get_stats_summary_urgent_call now =
      Except.error (PyRuntimeError.attributeError "total_seconds") ∧
    (∀ od : Option Time, calculate_is_urgent_dyn (pyArgOfOpt od) now =
      Except.ok (calculate_is_urgent od now)) := by
  refine ⟨rfl, ?_⟩
  intro od
  rcases od with _ | d <;> rfl

/-- A completed task whose deadline passed a day ago, owned by `demo_user`. -/
def done_overdue_task : Task :=
  { id := 2, title := "B", description := Option.none, is_important := false,
    quadrant := "Q4", completed := true, created_at := 0,
    completed_at := Option.some 0, deadline_at := Option.some (-usPerDay), user_id := 7 }

/-- Claim C4 counterexample: the stats `overdue` bucket counts a completed
task with a past deadline, although the claim's predicate (deadline
present, days negative, and completed false) classifies it as not
overdue. -/
theorem stats_overdue_counts_completed_task :
    (get_tasks_stats [done_overdue_task] demo_user 0).overdue = 1 ∧
    done_overdue_task.completed = true ∧
    is_overdue_spec done_overdue_task.deadline_at done_overdue_task.completed 0 = false :=
  ⟨rfl, rfl, rfl⟩

/-- The `overdue` counter of one loop step: incremented exactly when the
deadline is present and past, regardless of `completed`. -/
theorem stats_step_overdue (acc : TasksStats) (t : Task) (now : Time) :
    (stats_step acc t now).overdue =
      acc.overdue + (if is_overdue_spec t.deadline_at false now then 1 else 0) := by
  unfold stats_step
  rcases h : t.deadline_at with _ | d
  · simp only [is_overdue_spec, h]
    split_ifs <;> simp_all
  · have hiff : (timedeltaDays (d - now) < 0) ↔ d < now := by
      rw [timedeltaDays_neg_iff]
      exact sub_neg
    simp only [is_overdue_spec, h, calculate_days_until_deadline, Bool.not_false,
      Bool.and_true]
    by_cases hlt : d < now
    · have hdlt : timedeltaDays (d - now) < 0 := hiff.mpr hlt
      simp only [hdlt, hlt, decide_eq_true_eq, if_true, decide_True]
      split_ifs <;> simp_all
    · have hdlt : ¬ timedeltaDays (d - now) < 0 := fun hc => hlt (hiff.mp hc)
      simp only [hdlt, hlt, decide_eq_true_eq, if_false, decide_False]
      split_ifs <;> simp_all

/-- The fold underlying `get_tasks_stats` accumulates the overdue bucket. -/
theorem stats_fold_overdue (tasks : List Task) (now : Time) (acc : TasksStats) :
    (tasks.foldl (fun a t => stats_step a t now) acc).overdue =
      acc.overdue +
        (tasks.filter (fun t => is_overdue_spec t.deadline_at false now)).length := by
  induction tasks generalizing acc with
  | nil => simp
  | cons t ts ih =>
    rw [List.foldl_cons, ih, stats_step_overdue]
    by_cases hp : is_overdue_spec t.deadline_at false now = true
    · simp [hp, List.filter_cons]
      omega
    · simp [hp, List.filter_cons]

/-- Claim C4 amended: the admin listing's per-task `is_overdue` field and
the stats-summary overdue filter classify a task overdue iff its deadline
is present and in the past and the task is not completed (negative
days-remaining being equivalent to a past deadline); the `overdue` bucket
of the general stats endpoint instead counts every visible task whose
deadline is present and in the past, regardless of `completed`. -/
theorem overdue_classification (t : Task) (now : Time) (db : List Task) (u : User) :
    admin_is_overdue t now = is_overdue_spec t.deadline_at t.completed now ∧
    summary_overdue_count db u now =
      ((if u.role.value == "admin" then db
        else db.filter (fun t2 => t2.user_id == u.id)).filter
        (fun t2 => is_overdue_spec t2.deadline_at t2.completed now)).length ∧
    (get_tasks_stats db u now).overdue =
      ((visible_tasks db u).filter
        (fun t2 => is_overdue_spec t2.deadline_at false now)).length := by
  refine ⟨?_, rfl, ?_⟩
  · unfold admin_is_overdue is_overdue_spec
    rcases t.deadline_at with _ | d
    · rfl
    · have hiff : (timedeltaDays (d - now) < 0) ↔ d < now := by
        rw [timedeltaDays_neg_iff]
        exact sub_neg
      show (decide (timedeltaDays (d - now) < 0) && !t.completed) =
        (decide (d < now) && !t.completed)
      rw [decide_eq_decide.mpr hiff]
  · unfold get_tasks_stats
    rw [stats_fold_overdue]
    simp

/-- Claim C5: for every list-style read — list-all (whose select
`visible_tasks` is shared by the stats endpoint), by-quadrant, by-status,
search, and the urgent listing — a non-admin actor's result contains only
rows with their own `user_id`, while an admin's candidate set carries no
ownership restriction: all tasks, narrowed only by the operation's content
filter. -/
theorem visibility_scope (db : List Task) (u : User) (q : String) (c : Bool)
    (kw : String) (now : Time) :
    (u.role.value ≠ "admin" →
      (∀ t ∈ visible_tasks db u, t.user_id = u.id) ∧
      (∀ t ∈ tasks_by_quadrant_select db u q, t.user_id = u.id) ∧
      (∀ t ∈ tasks_by_status_select db u c, t.user_id = u.id) ∧
      (∀ t ∈ search_select db u kw, t.user_id = u.id) ∧
      (∀ t ∈ get_urgent_tasks db u now, t.user_id = u.id)) ∧
    (u.role.value = "admin" →
      visible_tasks db u = db ∧
      tasks_by_quadrant_select db u q = db.filter (fun t => t.quadrant == q) ∧
      tasks_by_status_select db u c = db.filter (fun t => t.completed == c) ∧
      search_select db u kw = db.filter (fun t => ilike_contains t.title kw ||
        (match t.description with
         | Option.some s => ilike_contains s kw
         | Option.none => false)) ∧
      (∀ t : Task, t ∈ get_urgent_tasks db u now ↔
        t ∈ db ∧ (calculate_is_urgent t.deadline_at now && !t.completed) = true)) := by
  constructor
  · intro hne
    have hb : (u.role.value == "admin") = false := beq_eq_false_iff_ne.mpr hne
    have hvis : ∀ t ∈ visible_tasks db u, t.user_id = u.id := by
      intro t ht
      simp only [visible_tasks, hb, if_false, Bool.false_eq_true, List.mem_filter,
        beq_iff_eq] at ht
      exact ht.2
    refine ⟨hvis, ?_, ?_, ?_, ?_⟩
    · intro t ht
      simp only [tasks_by_quadrant_select, hb, if_false, Bool.false_eq_true,
        List.mem_filter, Bool.and_eq_true, beq_iff_eq] at ht
      exact ht.2.2
    · intro t ht
      simp only [tasks_by_status_select, hb, if_false, Bool.false_eq_true,
        List.mem_filter, Bool.and_eq_true, beq_iff_eq] at ht
      exact ht.2.2
    · intro t ht
      simp only [search_select, hb, if_false, Bool.false_eq_true, List.mem_filter,
        Bool.and_eq_true, beq_iff_eq] at ht
      exact ht.2.1
    · intro t ht
      have ht2 := (List.mergeSort_perm _ _).mem_iff.mp ht
      exact hvis t (List.mem_filter.mp ht2).1
  · intro ha
    have hb : (u.role.value == "admin") = true := beq_iff_eq.mpr ha
    have hvis : visible_tasks db u = db := by
      simp [visible_tasks, hb]
    refine ⟨hvis, ?_, ?_, ?_, ?_⟩
    · simp [tasks_by_quadrant_select, hb]
    · simp [tasks_by_status_select, hb]
    · simp [search_select, hb]
    · intro t
      unfold get_urgent_tasks
      rw [(List.mergeSort_perm _ _).mem_iff, List.mem_filter, hvis]

/-- Witness for C5: for an admin on a one-task store, the list-all select
keeps the foreign-owned task. -/
theorem visibility_scope_witness :
    visible_tasks [demo_task] admin_user = [demo_task] :=
  ((visibility_scope [demo_task] admin_user "Q1" true "ab" 0).2 rfl).1

/-- Claim C6: for each single-item operation (fetch by id, update,
complete, delete), a missing id yields NotFound regardless of the actor,
and an existing id whose row belongs to someone else yields Forbidden for a
non-admin: the existence check precedes the authorization check, so the two
failure kinds are never conflated. -/
theorem single_item_error_order (db : List Task) (u : User) (tid : Int)
    (upd : TaskUpdate) (now : Time) :
    (db.find? (fun t => t.id == tid) = Option.none →
      get_task_by_id db u tid now = Except.error ApiError.notFound ∧
      update_task db u tid upd now = Except.error ApiError.notFound ∧
      complete_task db u tid now = Except.error ApiError.notFound ∧
      delete_task db u tid = Except.error ApiError.notFound) ∧
    (∀ task : Task, db.find? (fun t => t.id == tid) = Option.some task →
      u.role.value ≠ "admin" → task.user_id ≠ u.id →
      get_task_by_id db u tid now = Except.error ApiError.forbidden ∧
      update_task db u tid upd now = Except.error ApiError.forbidden ∧
      complete_task db u tid now = Except.error ApiError.forbidden ∧
      delete_task db u tid = Except.error ApiError.forbidden) := by
  constructor
  · intro h
    refine ⟨?_, ?_, ?_, ?_⟩ <;>
      simp [get_task_by_id, update_task, complete_task, delete_task, h]
  · intro task hfind hrole howner
    have hb1 : (u.role.value != "admin") = true := bne_iff_ne.mpr hrole
    have hb2 : (task.user_id != u.id) = true := bne_iff_ne.mpr howner
    refine ⟨?_, ?_, ?_, ?_⟩ <;>
      simp [get_task_by_id, update_task, complete_task, delete_task, hfind, hb1, hb2]

/-- Witness for C6: a non-owner non-admin fetching an existing task id gets
Forbidden (not NotFound). -/
theorem single_item_error_order_witness :
    get_task_by_id [demo_task] other_user 1 0 = Except.error ApiError.forbidden :=
  ((single_item_error_order [demo_task] other_user 1 {} 0).2 demo_task rfl
    (by decide) (by decide)).1

/-- Claim C7: update applies only the supplied fields (unset fields are
no-ops, not resets), and recomputes `quadrant` — from the post-update
values of both `is_important` and `deadline_at`, with the write-time clock
— exactly when one of those two fields is supplied; a title-only update
leaves `deadline_at`, `is_important` and `quadrant` unchanged, and
supplying `is_important = true` on a task without a deadline yields Q2. -/
theorem update_partial_semantics (t : Task) (now : Time) :
    (∀ upd : TaskUpdate,
      (upd.title = Option.none → (apply_update t upd now).title = t.title) ∧
      (upd.description = Option.none →
        (apply_update t upd now).description = t.description) ∧
      (upd.is_important = Option.none →
        (apply_update t upd now).is_important = t.is_important) ∧
      (upd.deadline_at = Option.none →
        (apply_update t upd now).deadline_at = t.deadline_at) ∧
      (upd.completed = Option.none → (apply_update t upd now).completed = t.completed) ∧
      (upd.is_important = Option.none → upd.deadline_at = Option.none →
        (apply_update t upd now).quadrant = t.quadrant) ∧
      ((upd.is_important.isSome || upd.deadline_at.isSome) = true →
        (apply_update t upd now).quadrant =
          calculate_quadrant ((apply_update t upd now).is_important)
            ((apply_update t upd now).deadline_at) now)) ∧
    (∀ s : String,
      apply_update t { title := Option.some s } now = { t with title := s }) ∧
    (t.deadline_at = Option.none →
      (apply_update t { is_important := Option.some true } now).quadrant = "Q2") := by
  refine ⟨?_, fun s => rfl, ?_⟩
  · intro upd
    rcases upd with ⟨_ | a, _ | b, _ | c, _ | d, _ | e⟩ <;>
      refine ⟨?_, ?_, ?_, ?_, ?_, ?_, ?_⟩ <;> intro h <;> (try intro h2) <;>
        simp_all [apply_update]
  · intro hdl
    simp [apply_update, hdl, calculate_quadrant]

/-- Witness for C7: `is_important=true` supplied on the deadline-free
`demo_task` recomputes its quadrant to Q2. -/
theorem update_partial_semantics_witness :
    (apply_update demo_task { is_important := Option.some true } 0).quadrant = "Q2" :=
  (update_partial_semantics demo_task 0).2.2 rfl

/-- The completed/completed_at consistency invariant from the data model:
`completed_at` is non-null iff `completed` is true. -/
def completed_at_consistent (t : Task) : Bool := t.completed_at.isSome == t.completed

/-- The store reached by creating a task and then updating it with
`{completed: true}`. -/
def update_completed_db : List Task :=
  match update_task (create_task [] demo_user { title := "A" } 0).db demo_user 1
      { completed := Option.some true } 5 with
  | Except.ok out => out.db
  | Except.error _ => []

/-- Claim C8 counterexample: a state reachable through create followed by
an update supplying `completed = true` holds a task with `completed = true`
and `completed_at = null`, violating the invariant — the update setattr
loop writes `completed` without ever touching `completed_at`. -/
theorem update_breaks_completed_at_invariant :
    update_completed_db.map (fun t => (t.completed, t.completed_at)) =
      [(true, Option.none)] ∧
    update_completed_db.all completed_at_consistent = false :=
  ⟨rfl, rfl⟩

/-- Claim C8 amended: the invariant `completed_at` non-null iff `completed`
is preserved by create, complete, delete, and by every update that does not
supply the `completed` field; an update that supplies `completed` can break
it (see the counterexample). -/
theorem completed_at_invariant_preservation (db : List Task) (u : User)
    (req : TaskCreate) (upd : TaskUpdate) (tid : Int) (now : Time)
    (hdb : ∀ t ∈ db, completed_at_consistent t = true)
    (hupd : upd.completed = Option.none) :
    (∀ t ∈ (create_task db u req now).db, completed_at_consistent t = true) ∧
    (∀ out : MutationOutcome, complete_task db u tid now = Except.ok out →
      ∀ t ∈ out.db, completed_at_consistent t = true) ∧
    (∀ out : MutationOutcome, update_task db u tid upd now = Except.ok out →
      ∀ t ∈ out.db, completed_at_consistent t = true) ∧
    (∀ out : DeleteOutcome, delete_task db u tid = Except.ok out →
      ∀ t ∈ out.db, completed_at_consistent t = true) := by
  have happly : ∀ t2, completed_at_consistent t2 = true →
      completed_at_consistent (apply_update t2 upd now) = true := by
    intro t2 h2
    unfold completed_at_consistent
    rw [apply_update_completed_at, apply_update_completed_of_unset _ _ _ hupd]
    exact h2
  refine ⟨?_, ?_, ?_, ?_⟩
  · intro t ht
    simp only [create_task, List.mem_append, List.mem_singleton] at ht
    rcases ht with ht | ht
    · exact hdb t ht
    · subst ht
      rfl
  · intro out hout t ht
    unfold complete_task at hout
    rcases hfind : db.find? (fun t2 => t2.id == tid) with _ | task <;> simp only [hfind] at hout
    · cases hout
    · by_cases hperm : (u.role.value != "admin" && task.user_id != u.id) = true
      · rw [if_pos hperm] at hout
        cases hout
      · rw [if_neg hperm] at hout
        cases hout
        rcases List.mem_map.mp ht with ⟨t2, ht2, hmap⟩
        by_cases hid : (t2.id == tid) = true
        · rw [if_pos hid] at hmap
          subst hmap
          rfl
        · rw [if_neg hid] at hmap
          subst hmap
          exact hdb t2 ht2
  · intro out hout t ht
    unfold update_task at hout
    rcases hfind : db.find? (fun t2 => t2.id == tid) with _ | task <;> simp only [hfind] at hout
    · cases hout
    · by_cases hperm : (u.role.value != "admin" && task.user_id != u.id) = true
      · rw [if_pos hperm] at hout
        cases hout
      · rw [if_neg hperm] at hout
        cases hout
        rcases List.mem_map.mp ht with ⟨t2, ht2, hmap⟩
        by_cases hid : (t2.id == tid) = true
        · rw [if_pos hid] at hmap
          subst hmap
          exact happly t2 (hdb t2 ht2)
        · rw [if_neg hid] at hmap
          subst hmap
          exact hdb t2 ht2
  · intro out hout t ht
    unfold delete_task at hout
    rcases hfind : db.find? (fun t2 => t2.id == tid) with _ | task <;> simp only [hfind] at hout
    · cases hout
    · by_cases hperm : (u.role.value != "admin" && task.user_id != u.id) = true
      · rw [if_pos hperm] at hout
        cases hout
      · rw [if_neg hperm] at hout
        cases hout
        exact hdb t (List.mem_filter.mp ht).1

/-- Witness for the amended C8: creation on an empty store yields a store
satisfying the invariant. -/
theorem completed_at_invariant_preservation_witness :
    ((create_task [] demo_user { title := "A" } 0).db).all completed_at_consistent = true :=
  List.all_eq_true.mpr
    ((completed_at_invariant_preservation [] demo_user { title := "A" } {} 1 0
      (by simp) rfl).1)

/-- Claim C10: a field explicitly supplied as null is a set, not an unset:
an update supplying `deadline_at = null` clears the stored deadline and
triggers quadrant recomputation from the now-absent deadline, whereas an
update omitting `deadline_at` leaves the stored deadline unchanged. -/
theorem update_deadline_null_vs_unset (t : Task) (now : Time) :
    ((apply_update t { deadline_at := Option.some Option.none } now).deadline_at =
      Option.none) ∧
    ((apply_update t { deadline_at := Option.some Option.none } now).quadrant =
      calculate_quadrant t.is_important Option.none now) ∧
    (∀ upd : TaskUpdate, upd.deadline_at = Option.none →
      (apply_update t upd now).deadline_at = t.deadline_at) := by
  refine ⟨rfl, rfl, ?_⟩
  intro upd h
  rcases upd with ⟨_ | a, _ | b, _ | c, _ | d, _ | e⟩ <;> simp_all [apply_update]

/-- Witness for C10: an update supplying nothing leaves `demo_task`'s
deadline unchanged. -/
theorem update_deadline_null_vs_unset_witness :
    (apply_update demo_task ({} : TaskUpdate) 0).deadline_at = demo_task.deadline_at :=
  (update_deadline_null_vs_unset demo_task 0).2.2 {} rfl

